import Mathlib

/-!
Shallow embedding of the FinTrack Expense Analyzer (`src/main.py`) and proofs
about it.

The embedded core is: value normalization (`clean_amount`), category
normalization (`clean_category`), food classification (`is_food_category`),
and the `analyze_expenses` pipeline — byte decoding (utf-8, then latin-1,
then cp1252), CSV parsing (modelling `pd.read_csv` with
`skipinitialspace=True` and `skip_blank_lines=True` on plain unquoted CSV
text), header normalization, keyword-based column detection, per-row
normalization, food filtering, summation and 2-decimal rounding.

Modelling conventions:
  - Python floats are rationals (ℚ); the amounts of interest are exact
    decimals, and `round(x, 2)` is round-half-to-even on ℚ.
  - A CSV cell is an `Option String`; `none` models a pandas NaN (missing or
    empty field).  A numeric cell (e.g. an int64 column) is modelled by its
    decimal string, which `clean_amount`'s `str()` coercion makes equivalent.
  - Upload bytes are `List (Fin 256)`.
  - Character classes (digits, whitespace, lower-casing) follow the ASCII
    subset of the corresponding Python Unicode classes; this is the alphabet
    of every input of interest here.
  - Failures are the `HTTPException`s of the source, modelled as a status
    code plus the literal detail string.
-/

namespace FinTrack

/-- Characters removed by the first substitution of `clean_amount`
(currency symbols and grouping commas). -/
def currencyChars : List Char := ['$', '€', '£', '¥', '₹', ',']

/-- Whitespace trimming on both ends, modelling Python `str.strip`. -/
def trimChars (l : List Char) : List Char :=
  ((l.dropWhile Char.isWhitespace).reverse.dropWhile Char.isWhitespace).reverse

/-- Base-10 value of a list of decimal digit characters. -/
def digitsVal (l : List Char) : Nat :=
  l.foldl (fun a c => a * 10 + (c.toNat - 48)) 0

/-- Split a character list at every occurrence of `sep`, dropping the
separators; the empty list yields one empty field, as Python `str.split`. -/
def splitOnChar (sep : Char) (l : List Char) : List (List Char) :=
  l.foldr
    (fun c acc =>
      match acc with
      | [] => [[c]]
      | cur :: rest => if c == sep then [] :: cur :: rest else (c :: cur) :: rest)
    [[]]

/-- Parse of an unsigned decimal token, as Python `float` behaves on tokens
over the alphabet of digits and dots: at least one digit overall, at most one
decimal point; an empty integer or fractional part is allowed ("5." and ".5"
parse, "." and "" do not). -/
def parseUnsigned (l : List Char) : Option ℚ :=
  match splitOnChar '.' l with
  | [a] =>
      if !a.isEmpty && a.all Char.isDigit then some (digitsVal a) else none
  | [a, b] =>
      if (!a.isEmpty || !b.isEmpty) && a.all Char.isDigit && b.all Char.isDigit then
        some (mkRat (digitsVal a * 10 ^ b.length + digitsVal b) (10 ^ b.length))
      else none
  | _ => none

/-- Python `float(s)` on a token whose characters are digits, dots and minus
signs — exactly the alphabet left by `clean_amount`'s final filter: an
optional single leading minus, then an unsigned decimal token.  Any other
shape (misplaced or repeated minus, repeated dots, no digits) raises a
`ValueError` in Python, here `none`. -/
def pyFloat (l : List Char) : Option ℚ :=
  match l with
  | '-' :: rest => (parseUnsigned rest).map (fun q => -q)
  | _ => parseUnsigned l

/-- Accounting-parentheses rewrite of `clean_amount`: a token that starts
with an opening and ends with a closing parenthesis becomes a minus sign
followed by the token without its outer characters
(`amount_str = '-' + amount_str[1:-1]`). -/
def parenNeg (l : List Char) : List Char :=
  if l.head? == some '(' && l.getLast? == some ')' then
    '-' :: (l.drop 1).dropLast
  else l

/-- Cleaning of one raw amount token — the body of `clean_amount` after the
missing/empty check: strip whitespace, drop currency symbols and commas,
rewrite accounting parentheses to a leading minus, then drop every character
that is not a digit, a dot or a minus sign. -/
def cleanToken (s : String) : List Char :=
  (parenNeg ((trimChars s.toList).filter (fun c => !currencyChars.contains c))).filter
    (fun c => c.isDigit || c == '.' || c == '-')

/-- Python `clean_amount`: a missing (NaN) or empty value maps to 0.0;
otherwise the cleaned token is parsed as a float and a parse failure falls
back to 0.0 (logged, never raised). -/
def clean_amount (v : Option String) : ℚ :=
  match v with
  | none => 0
  | some s => if s = "" then 0 else (pyFloat (cleanToken s)).getD 0

/-- Collapse every maximal run of whitespace to a single space character,
modelling the whitespace substitution of `clean_category`. -/
def collapseWS (l : List Char) : List Char :=
  l.foldr
    (fun c acc =>
      if c.isWhitespace then
        if acc.head? == some ' ' then acc else ' ' :: acc
      else c :: acc)
    []

/-- Python `clean_category`: a missing (NaN) value maps to the empty string;
otherwise strip, lowercase, and collapse internal whitespace runs. -/
def clean_category (v : Option String) : String :=
  match v with
  | none => ""
  | some s => String.mk (collapseWS ((trimChars s.toList).map Char.toLower))

/-- Containment of `needle` as a contiguous sublist (Python `in` on strings). -/
def isSubListOf (needle : List Char) : List Char → Bool
  | [] => needle.isEmpty
  | c :: rest => needle.isPrefixOf (c :: rest) || isSubListOf needle rest

/-- Python `keyword in category`: substring containment. -/
def strContains (hay needle : String) : Bool :=
  isSubListOf needle.toList hay.toList

/-- The fixed keyword list of `is_food_category`. -/
def food_keywords : List String :=
  ["food", "restaurant", "dining", "lunch", "dinner", "breakfast",
   "cafe", "coffee", "snack", "meal", "grocery", "groceries",
   "catering", "takeout", "delivery", "fast food", "fastfood"]

/-- The local `category_clean` of `is_food_category`: lowercase then strip. -/
def normalizeForFood (category : String) : String :=
  String.mk (trimChars (category.toList.map Char.toLower))

/-- Python `is_food_category`: lowercase and strip the argument, short-circuit
on the exact string "food", otherwise test each keyword of `food_keywords`
for substring containment. -/
def is_food_category (category : String) : Bool :=
  if normalizeForFood category = "food" then true
  else food_keywords.any (fun k => strContains (normalizeForFood category) k)

/-- The keyword list used to locate the amount column. -/
def amount_keywords : List String :=
  ["amount", "cost", "price", "total", "sum", "expense"]

/-- The keyword list used to locate the category column. -/
def category_keywords : List String :=
  ["category", "type", "description", "item"]

/-- One header satisfies the amount-column search when it contains any amount
keyword as a substring. -/
def hasAmountKeyword (col : String) : Bool :=
  amount_keywords.any (fun k => strContains col k)

/-- One header satisfies the category-column search when it contains any
category keyword as a substring. -/
def hasCategoryKeyword (col : String) : Bool :=
  category_keywords.any (fun k => strContains col k)

/-- A byte of the uploaded file. -/
abbrev Byte := Fin 256

/-- UTF-8 continuation bytes 0x80..0xBF. -/
def isCont (b : Byte) : Bool := 0x80 ≤ b.val && b.val < 0xC0

/-- Strict UTF-8 decoding, driven by `fuel ≥ length`: rejects stray
continuation bytes, truncated sequences, overlong encodings, surrogates and
code points above 0x10FFFF, as Python `bytes.decode('utf-8')` does. -/
def utf8DecodeAux : Nat → List Byte → Option (List Char)
  | _, [] => some []
  | 0, _ :: _ => none
  | fuel + 1, b :: rest =>
    let n := b.val
    if n < 0x80 then
      (utf8DecodeAux fuel rest).map (fun cs => Char.ofNat n :: cs)
    else if n < 0xC2 then none
    else if n < 0xE0 then
      match rest with
      | b2 :: rest2 =>
        if isCont b2 then
          (utf8DecodeAux fuel rest2).map
            (fun cs => Char.ofNat ((n - 0xC0) * 64 + (b2.val - 0x80)) :: cs)
        else none
      | [] => none
    else if n < 0xF0 then
      match rest with
      | b2 :: b3 :: rest3 =>
        if isCont b2 && isCont b3 then
          let cp := (n - 0xE0) * 4096 + (b2.val - 0x80) * 64 + (b3.val - 0x80)
          if 0x800 ≤ cp && !(0xD800 ≤ cp && cp < 0xE000) then
            (utf8DecodeAux fuel rest3).map (fun cs => Char.ofNat cp :: cs)
          else none
        else none
      | _ => none
    else if n < 0xF5 then
      match rest with
      | b2 :: b3 :: b4 :: rest4 =>
        if isCont b2 && isCont b3 && isCont b4 then
          let cp := (n - 0xF0) * 262144 + (b2.val - 0x80) * 4096 +
            (b3.val - 0x80) * 64 + (b4.val - 0x80)
          if 0x10000 ≤ cp && cp ≤ 0x10FFFF then
            (utf8DecodeAux fuel rest4).map (fun cs => Char.ofNat cp :: cs)
          else none
        else none
      | _ => none
    else none

/-- The UTF-8 attempt of the decode stage. -/
def utf8Decode (bs : List Byte) : Option (List Char) :=
  utf8DecodeAux bs.length bs

/-- Python `bytes.decode('latin-1')`: total — every byte maps to the code
point of its own value. -/
def latin1Decode (bs : List Byte) : List Char :=
  bs.map (fun b => Char.ofNat b.val)

/-- The latin-1 attempt of the decode stage, which never fails. -/
def latin1DecodeOpt (bs : List Byte) : Option (List Char) :=
  some (latin1Decode bs)

/-- The five byte values undefined in Windows-1252; `bytes.decode('cp1252')`
raises on them. -/
def cp1252Undefined : List Nat := [0x81, 0x8D, 0x8F, 0x90, 0x9D]

/-- The Windows-1252 remapping of the 0x80..0x9F block (all other defined
bytes map to the code point of their own value). -/
def cp1252Table : List (Nat × Nat) :=
  [(0x80, 0x20AC), (0x82, 0x201A), (0x83, 0x0192), (0x84, 0x201E),
   (0x85, 0x2026), (0x86, 0x2020), (0x87, 0x2021), (0x88, 0x02C6),
   (0x89, 0x2030), (0x8A, 0x0160), (0x8B, 0x2039), (0x8C, 0x0152),
   (0x8E, 0x017D), (0x91, 0x2018), (0x92, 0x2019), (0x93, 0x201C),
   (0x94, 0x201D), (0x95, 0x2022), (0x96, 0x2013), (0x97, 0x2014),
   (0x98, 0x02DC), (0x99, 0x2122), (0x9A, 0x0161), (0x9B, 0x203A),
   (0x9C, 0x0153), (0x9E, 0x017E), (0x9F, 0x0178)]

/-- Python `bytes.decode('cp1252')`: fails on the five undefined bytes and
otherwise maps each byte through the Windows-1252 table. -/
def cp1252Decode (bs : List Byte) : Option (List Char) :=
  if bs.any (fun b => cp1252Undefined.contains b.val) then none
  else some (bs.map (fun b =>
    match cp1252Table.lookup b.val with
    | some cp => Char.ofNat cp
    | none => Char.ofNat b.val))

/-- The decode stage of `analyze_expenses`: utf-8 first, then latin-1, then
cp1252; the first decode that succeeds wins.  A `none` result would escape
the taxonomy and surface as a 500 internal error. -/
def decodeStage (bs : List Byte) : Option (List Char) :=
  (utf8Decode bs).orElse (fun _ => (latin1DecodeOpt bs).orElse (fun _ => cp1252Decode bs))

/-- A FastAPI `HTTPException`: status code and detail message. -/
structure HTTPError where
  status : Nat
  detail : String
  deriving DecidableEq

/-- The success payload of `analyze_expenses`. -/
structure AnalysisResult where
  answer : ℚ
  email : String
  exam : String
  deriving DecidableEq

/-- A parsed tabular dataset: header names plus rows of cells aligned with the
headers (`none` cells are pandas NaN values). -/
structure Csv where
  headers : List String
  rows : List (List (Option String))
  deriving DecidableEq

/-- An empty field reads as a pandas NaN cell.  The further default
`na_values` sentinels of `read_csv` (such as "NaN" or "N/A") are not
modelled: both sides turn them into a zero amount (`clean_amount` fails
closed on them) and into a non-food category, so they cannot change any
outcome proved here. -/
def toCell (f : String) : Option String := if f = "" then none else some f

/-- Pad a row with NaN cells up to the expected width, as pandas fills short
rows. -/
def padRow (n : Nat) (r : List (Option String)) : List (Option String) :=
  r ++ List.replicate (n - r.length) none

/-- States of the pandas C tokenizer for the dialect of the source
(`sep=','`, `quotechar='"'`, doubled-quote escaping, `skipinitialspace=True`):
at the start of a field (initial spaces skippable, a quote opens a quoted
section), inside an unquoted field, inside a quoted section, or after a
closed quoted section (trailing characters are appended literally). -/
inductive CsvMode where
  | fieldStart
  | unquoted
  | quoted
  | afterQuote
  deriving DecidableEq

/-- Close the current record: a record whose raw text consumed no character
at all is a blank line and is skipped (`skip_blank_lines=True`); any other
record is emitted with its fields. -/
def endRecord (field : List Char) (fields : List String) (raw : Bool)
    (acc : List (List String)) : List (List String) :=
  if raw then ((String.mk field.reverse :: fields).reverse) :: acc else acc

/-- Consume the line feed of a CRLF pair: after a carriage-return record
terminator, an immediately following newline belongs to the same
terminator. -/
def dropLF : List Char → List Char
  | '\n' :: rest => rest
  | rest => rest

/-- The record scanner of the pandas C tokenizer: fields split at commas
(spaces after a delimiter skipped), records terminated by LF, CR or CRLF,
quoted sections protecting delimiters and terminators, `""` inside quotes a
literal quote, characters after a closing quote appended literally, blank
lines (empty raw records) skipped.  End of input inside an open quoted
section is a tokenizer error ("EOF inside string"), `none`.  `fuel` bounds
the recursion; every step consumes input, so any `fuel > length` is exact. -/
def csvScan (fuel : Nat) (input : List Char) (mode : CsvMode)
    (field : List Char) (fields : List String) (raw : Bool)
    (acc : List (List String)) : Option (List (List String)) :=
  match fuel with
  | 0 => none
  | fuel + 1 =>
    match input with
    | [] =>
      match mode with
      | .quoted => none
      | _ => some (endRecord field fields raw acc).reverse
    | c :: rest =>
      match mode with
      | .fieldStart =>
        if c = ' ' then csvScan fuel rest .fieldStart field fields true acc
        else if c = '"' then csvScan fuel rest .quoted field fields true acc
        else if c = ',' then
          csvScan fuel rest .fieldStart [] (String.mk field.reverse :: fields) true acc
        else if c = '\n' then
          csvScan fuel rest .fieldStart [] [] false (endRecord field fields raw acc)
        else if c = '\r' then
          csvScan fuel (dropLF rest) .fieldStart [] [] false (endRecord field fields raw acc)
        else csvScan fuel rest .unquoted (c :: field) fields true acc
      | .unquoted =>
        if c = ',' then
          csvScan fuel rest .fieldStart [] (String.mk field.reverse :: fields) true acc
        else if c = '\n' then
          csvScan fuel rest .fieldStart [] [] false (endRecord field fields raw acc)
        else if c = '\r' then
          csvScan fuel (dropLF rest) .fieldStart [] [] false (endRecord field fields raw acc)
        else csvScan fuel rest .unquoted (c :: field) fields true acc
      | .quoted =>
        if c = '"' then
          match rest with
          | '"' :: rest2 => csvScan fuel rest2 .quoted ('"' :: field) fields true acc
          | _ => csvScan fuel rest .afterQuote field fields true acc
        else csvScan fuel rest .quoted (c :: field) fields true acc
      | .afterQuote =>
        if c = ',' then
          csvScan fuel rest .fieldStart [] (String.mk field.reverse :: fields) true acc
        else if c = '\n' then
          csvScan fuel rest .fieldStart [] [] false (endRecord field fields raw acc)
        else if c = '\r' then
          csvScan fuel (dropLF rest) .fieldStart [] [] false (endRecord field fields raw acc)
        else csvScan fuel rest .afterQuote (c :: field) fields true acc

/-- The non-blank records of the decoded text, or `none` when the tokenizer
fails (end of input inside a quoted section). -/
def csvRecords (text : List Char) : Option (List (List String)) :=
  csvScan (text.length + 1) text .fieldStart [] [] false []

/-- Build the dataset from the header record and the data records, as
`pd.read_csv` does: with no data record the frame has the header columns and
zero rows; otherwise the expected width is the header width, or the first
data record's width when that is larger — in which case the surplus leading
fields of every row form an implicit index and are dropped from the data
columns.  A later record wider than the expected width raises a parser
error, answered as 400 "Error reading CSV" (the source appends the exception
text); shorter records are padded with NaN.  The `Unnamed: k` renaming of
empty header fields and the `name.1` mangling of duplicate raw header names
are not modelled: neither can contain a detection keyword or change any
error class below. -/
def parseRows (header : List String) (dataRecs : List (List String)) : Except HTTPError Csv :=
  match dataRecs with
  | [] => .ok ⟨header, []⟩
  | first :: _ =>
    let w := max header.length first.length
    let k := first.length - header.length
    if dataRecs.any (fun r => w < r.length) then
      .error ⟨400, "Error reading CSV"⟩
    else
      .ok ⟨header, dataRecs.map (fun r => padRow header.length ((r.map toCell).drop k))⟩

/-- The parse stage, modelling `pd.read_csv(io.StringIO(s),
skipinitialspace=True, skip_blank_lines=True)`: a tokenizer failure is a
parser error (400 "Error reading CSV"); a text with no parsable record at
all raises `EmptyDataError`, answered as 400 "CSV file is empty"; otherwise
the first record is the header row and the rest are data rows. -/
def parseCsv (text : List Char) : Except HTTPError Csv :=
  match csvRecords text with
  | none => .error ⟨400, "Error reading CSV"⟩
  | some [] => .error ⟨400, "CSV file is empty"⟩
  | some (header :: dataRecs) => parseRows header dataRecs

/-- Round the fraction `n / d` (with `d > 0`) to the nearest integer, ties to
even — the rounding of Python `round` — computed with integer operations:
`t` is the floor, `r ∈ [0, d)` the remainder, and `2r` against `d` decides
the direction. -/
def roundHalfEvenInt (n : ℤ) (d : ℤ) : ℤ :=
  let t := Int.fdiv n d
  let r := n - t * d
  if 2 * r < d then t
  else if d < 2 * r then t + 1
  else if t % 2 = 0 then t else t + 1

/-- Python `round(x, 2)`: scale by 100, round half to even, scale back.
`q.num / q.den` is the reduced form of `q`, so `100 * q.num / q.den` is the
scaled value. -/
def round2 (q : ℚ) : ℚ := mkRat (roundHalfEvenInt (100 * q.num) (q.den : ℤ)) 100

/-- Header normalization of the pipeline:
`df.columns.str.strip().str.lower()`. -/
def normHeader (h : String) : String :=
  String.mk ((trimChars h.toList).map Char.toLower)

/-- The normalized header list the column detector searches. -/
def detectedCols (df : Csv) : List String :=
  df.headers.map normHeader

/-- Cell of a row at a column index; out-of-range reads are NaN. -/
def cellAt (r : List (Option String)) (i : Nat) : Option String :=
  r.getD i none

/-- Total food spending of a dataset: clean every category cell, keep the rows
whose cleaned category is food-related, clean their amount cells and sum.
The source selects the columns by label (`df[amount_col]`); the pipeline only
reaches this computation when each selected label occurs exactly once among
the normalized headers (see `analyzeDataset`), and then the label lookup is
the first index whose header satisfies the keyword search: the found label is
the first satisfying header, and an earlier header equal to it would itself
satisfy the search. -/
def totalFood (df : Csv) : ℚ :=
  ((df.rows.filter (fun r =>
      is_food_category (clean_category
        (cellAt r ((detectedCols df).findIdx hasCategoryKeyword))))).map
    (fun r => clean_amount
      (cellAt r ((detectedCols df).findIdx hasAmountKeyword)))).sum

/-- The pipeline from a parsed dataset on: the `df.empty` check, header
normalization, column detection with the amount column first, then the
cleaning / filtering / summation / rounding steps of `analyze_expenses`.
When a selected label occurs more than once among the normalized headers
(raw headers distinct, equal after strip-and-lowercase), `df[amount_col]` or
`df[category_col]` yields a DataFrame instead of a Series and
`clean_amount` / `clean_category` raise on it (`pd.isna(series)` has no truth
value), which the outer handler reports as a 500 internal error (the source
appends the exception text). -/
def analyzeDataset (df : Csv) : Except HTTPError AnalysisResult :=
  if df.rows.isEmpty then .error ⟨400, "CSV file contains no data"⟩
  else
    match (detectedCols df).find? hasAmountKeyword with
    | none => .error ⟨400, "Could not identify amount column in CSV"⟩
    | some amount_col =>
      match (detectedCols df).find? hasCategoryKeyword with
      | none => .error ⟨400, "Could not identify category column in CSV"⟩
      | some category_col =>
        if 1 < (detectedCols df).count amount_col ∨
            1 < (detectedCols df).count category_col then
          .error ⟨500, "Internal server error"⟩
        else
          .ok ⟨round2 (totalFood df), "user@example.com", "tds-2025-05-roe"⟩

/-- The pipeline on decoded text: parse, then analyze the dataset. -/
def analyzeText (text : List Char) : Except HTTPError AnalysisResult :=
  match parseCsv text with
  | .error e => .error e
  | .ok df => analyzeDataset df

/-- The full `analyze_expenses` core on the raw upload bytes. -/
def analyze_expenses (bs : List Byte) : Except HTTPError AnalysisResult :=
  match decodeStage bs with
  | none => .error ⟨500, "Internal server error"⟩
  | some text => analyzeText text

/-- Bytes of an ASCII string: code points below 128 are their own UTF-8
encoding. -/
def asciiBytes (s : String) : List Byte :=
  s.toList.map (fun c => ⟨c.toNat % 256, Nat.mod_lt _ (by norm_num)⟩)

/-- The upload text of the end-to-end example: header `Category,Amount` and
the three data rows. -/
def c1CsvText : String := "Category,Amount\nLunch,$12.50\nRent,800\nGroceries,(5.00)\n"

/-- The dataset the parse stage yields on that upload. -/
def c1Df : Csv :=
  ⟨["Category", "Amount"],
   [[some "Lunch", some "$12.50"], [some "Rent", some "800"],
    [some "Groceries", some "(5.00)"]]⟩

/-- A duplicate-label dataset: the raw headers `Amount,AMOUNT,Category` are
distinct (so `read_csv` does not mangle them) but normalize to the duplicated
label "amount". -/
def c10Df : Csv :=
  ⟨["Amount", "AMOUNT", "Category"], [[some "1", some "2", some "Rent"]]⟩

end FinTrack

deriving instance DecidableEq for Except

namespace FinTrack

/-- A nonempty list is not `isEmpty`. -/
theorem isEmpty_false_of_ne_nil {α : Type} {l : List α} (h : l ≠ []) :
    l.isEmpty = false := by
  cases l with
  | nil => exact absurd rfl h
  | cons a t => rfl

/-- Step lemma: a successful decode hands the text to the text pipeline. -/
theorem analyze_expenses_decoded {bs : List Byte} {text : List Char}
    (h : decodeStage bs = some text) :
    analyze_expenses bs = analyzeText text := by
  unfold analyze_expenses
  rw [h]

/-- Step lemma: a parse error is the pipeline outcome. -/
theorem analyzeText_error {text : List Char} {e : HTTPError}
    (h : parseCsv text = .error e) :
    analyzeText text = .error e := by
  unfold analyzeText
  rw [h]

/-- Step lemma: a successful parse hands the dataset to the dataset stages. -/
theorem analyzeText_parsed {text : List Char} {df : Csv}
    (h : parseCsv text = .ok df) :
    analyzeText text = analyzeDataset df := by
  unfold analyzeText
  rw [h]

/-- Step lemma: with data rows present, both columns detected and each
selected label unique among the normalized headers, the pipeline answers the
rounded food total and the static metadata. -/
theorem analyzeDataset_success {df : Csv} {a c : String}
    (hne : df.rows.isEmpty = false)
    (ha : (detectedCols df).find? hasAmountKeyword = some a)
    (hc : (detectedCols df).find? hasCategoryKeyword = some c)
    (hdup : ¬(1 < (detectedCols df).count a ∨ 1 < (detectedCols df).count c)) :
    analyzeDataset df =
      .ok ⟨round2 (totalFood df), "user@example.com", "tds-2025-05-roe"⟩ := by
  unfold analyzeDataset
  simp only [hne, ha, hc]
  rw [if_neg hdup]
  rfl

/-- Step lemma: with data rows present, both columns detected and a selected
label duplicated among the normalized headers, the pipeline reports the 500
internal error of the Series-ambiguity exception. -/
theorem analyzeDataset_dup {df : Csv} {a c : String}
    (hne : df.rows.isEmpty = false)
    (ha : (detectedCols df).find? hasAmountKeyword = some a)
    (hc : (detectedCols df).find? hasCategoryKeyword = some c)
    (hdup : 1 < (detectedCols df).count a ∨ 1 < (detectedCols df).count c) :
    analyzeDataset df = .error ⟨500, "Internal server error"⟩ := by
  unfold analyzeDataset
  simp only [hne, ha, hc]
  rw [if_pos hdup]
  rfl

/-- Step lemma: with data rows present and no amount-keyword header, the
pipeline reports the amount-column error. -/
theorem analyzeDataset_noAmount {df : Csv}
    (hne : df.rows.isEmpty = false)
    (ha : (detectedCols df).find? hasAmountKeyword = none) :
    analyzeDataset df = .error ⟨400, "Could not identify amount column in CSV"⟩ := by
  unfold analyzeDataset
  rw [hne, ha]
  rfl

/-- Step lemma: with data rows present, the amount column found and no
category-keyword header, the pipeline reports the category-column error. -/
theorem analyzeDataset_noCategory {df : Csv} {a : String}
    (hne : df.rows.isEmpty = false)
    (ha : (detectedCols df).find? hasAmountKeyword = some a)
    (hc : (detectedCols df).find? hasCategoryKeyword = none) :
    analyzeDataset df = .error ⟨400, "Could not identify category column in CSV"⟩ := by
  unfold analyzeDataset
  rw [hne, ha, hc]
  rfl

/-- The dataset stages never report the parse-stage "CSV file is empty"
error. -/
theorem analyzeDataset_ne_empty_error (df : Csv) :
    analyzeDataset df ≠ .error ⟨400, "CSV file is empty"⟩ := by
  unfold analyzeDataset
  split
  · decide
  · split
    · decide
    · split
      · decide
      · split
        · decide
        · simp

/-- The dataset stages report the "no data" error exactly on zero-row
datasets. -/
theorem analyzeDataset_noData_iff (df : Csv) :
    analyzeDataset df = .error ⟨400, "CSV file contains no data"⟩ ↔ df.rows = [] := by
  constructor
  · intro h
    by_contra hne
    have hne' : df.rows.isEmpty = false := isEmpty_false_of_ne_nil hne
    rcases hfa : (detectedCols df).find? hasAmountKeyword with _ | a
    · rw [analyzeDataset_noAmount hne' hfa] at h
      exact absurd h (by decide)
    · rcases hfc : (detectedCols df).find? hasCategoryKeyword with _ | c
      · rw [analyzeDataset_noCategory hne' hfa hfc] at h
        exact absurd h (by decide)
      · by_cases hdup : 1 < (detectedCols df).count a ∨ 1 < (detectedCols df).count c
        · rw [analyzeDataset_dup hne' hfa hfc hdup] at h
          exact absurd h (by decide)
        · rw [analyzeDataset_success hne' hfa hfc hdup] at h
          exact Except.noConfusion h
  · intro h
    unfold analyzeDataset
    rw [h]
    rfl

/-- Step lemma: a tokenizer failure is the parser-error outcome. -/
theorem parseCsv_tokenizer_error {text : List Char} (h : csvRecords text = none) :
    parseCsv text = .error ⟨400, "Error reading CSV"⟩ := by
  unfold parseCsv
  rw [h]

/-- Step lemma: zero parsable records is the `EmptyDataError` outcome. -/
theorem parseCsv_no_records {text : List Char} (h : csvRecords text = some []) :
    parseCsv text = .error ⟨400, "CSV file is empty"⟩ := by
  unfold parseCsv
  rw [h]

/-- Step lemma: with records present, the first is the header row. -/
theorem parseCsv_records {text : List Char} {header : List String}
    {dataRecs : List (List String)}
    (h : csvRecords text = some (header :: dataRecs)) :
    parseCsv text = parseRows header dataRecs := by
  unfold parseCsv
  rw [h]

/-- The possible outcomes of building the dataset from the parsed records. -/
theorem parseRows_cases (header : List String) (dataRecs : List (List String)) :
    parseRows header dataRecs = .error ⟨400, "Error reading CSV"⟩ ∨
    ∃ df : Csv, parseRows header dataRecs = .ok df := by
  rcases dataRecs with _ | ⟨first, rest⟩
  · exact Or.inr ⟨_, rfl⟩
  · simp only [parseRows]
    split
    · exact Or.inl rfl
    · exact Or.inr ⟨_, rfl⟩

/-- The parse stage reports "CSV file is empty" exactly when the tokenizer
succeeds with no parsable (non-blank) record at all. -/
theorem parseCsv_empty_iff (text : List Char) :
    parseCsv text = .error ⟨400, "CSV file is empty"⟩ ↔ csvRecords text = some [] := by
  constructor
  · intro h
    rcases hr : csvRecords text with _ | (_ | ⟨header, dataRecs⟩)
    · rw [parseCsv_tokenizer_error hr] at h
      exact absurd h (by decide)
    · rfl
    · rw [parseCsv_records hr] at h
      rcases parseRows_cases header dataRecs with hp | ⟨df, hp⟩
      · rw [hp] at h
        exact absurd h (by decide)
      · rw [hp] at h
        exact Except.noConfusion h
  · intro h
    exact parseCsv_no_records h

/-- The possible outcomes of the parse stage. -/
theorem parseCsv_cases (text : List Char) :
    parseCsv text = .error ⟨400, "CSV file is empty"⟩ ∨
    parseCsv text = .error ⟨400, "Error reading CSV"⟩ ∨
    ∃ df : Csv, parseCsv text = .ok df := by
  rcases hr : csvRecords text with _ | (_ | ⟨header, dataRecs⟩)
  · exact Or.inr (Or.inl (parseCsv_tokenizer_error hr))
  · exact Or.inl (parseCsv_no_records hr)
  · rw [parseCsv_records hr]
    rcases parseRows_cases header dataRecs with h | ⟨df, h⟩
    · exact Or.inr (Or.inl h)
    · exact Or.inr (Or.inr ⟨df, h⟩)

/-- Characterization of `List.find?` as first match: it returns `x` exactly
when `x` sits at an index where the predicate holds and the predicate fails
at every earlier index. -/
theorem find_first_iff (p : String → Bool) (l : List String) (x : String) :
    l.find? p = some x ↔
      p x = true ∧ ∃ i, i < l.length ∧ l.getD i "" = x ∧
        ∀ j, j < i → p (l.getD j "") = false := by
  induction l with
  | nil => simp [List.find?]
  | cons a t ih =>
    cases hpa : p a with
    | true =>
      simp only [List.find?, hpa]
      constructor
      · intro h
        injection h with h
        subst h
        exact ⟨hpa, 0, by simp, rfl, fun j hj => absurd hj (Nat.not_lt_zero j)⟩
      · rintro ⟨hx, i, hi, hget, hbefore⟩
        cases i with
        | zero =>
          rw [← hget]
          rfl
        | succ n =>
          have h0 := hbefore 0 (Nat.succ_pos n)
          rw [List.getD_cons_zero, hpa] at h0
          exact absurd h0 (by decide)
    | false =>
      simp only [List.find?, hpa]
      rw [ih]
      constructor
      · rintro ⟨hx, i, hi, hget, hbefore⟩
        refine ⟨hx, i + 1, by simp only [List.length_cons]; omega,
          by rw [List.getD_cons_succ]; exact hget, ?_⟩
        intro j hj
        cases j with
        | zero =>
          rw [List.getD_cons_zero]
          exact hpa
        | succ m =>
          rw [List.getD_cons_succ]
          exact hbefore m (by omega)
      · rintro ⟨hx, i, hi, hget, hbefore⟩
        cases i with
        | zero =>
          rw [List.getD_cons_zero] at hget
          subst hget
          rw [hpa] at hx
          exact absurd hx (by decide)
        | succ n =>
          refine ⟨hx, n, by simp only [List.length_cons] at hi; omega,
            by rw [List.getD_cons_succ] at hget; exact hget, ?_⟩
          intro j hj
          have hb := hbefore (j + 1) (by omega)
          rw [List.getD_cons_succ] at hb
          exact hb

/-- Claim C1: on the CSV upload with header line `Category,Amount` and the
data rows `Lunch,$12.50`, `Rent,800`, `Groceries,(5.00)`, the analysis
pipeline succeeds and the answer field is `7.5`
(`12.50 + (-5.00)`, rounded to 2 decimal places). -/
theorem c1_end_to_end :
    analyze_expenses (asciiBytes c1CsvText) =
      .ok ⟨7.5, "user@example.com", "tds-2025-05-roe"⟩ := by
  rw [analyze_expenses_decoded
      (show decodeStage (asciiBytes c1CsvText) = some c1CsvText.toList from by decide)]
  rw [analyzeText_parsed (show parseCsv c1CsvText.toList = .ok c1Df from by decide)]
  rw [analyzeDataset_success (show c1Df.rows.isEmpty = false from rfl)
      (show (detectedCols c1Df).find? hasAmountKeyword = some "amount" from by decide)
      (show (detectedCols c1Df).find? hasCategoryKeyword = some "category" from by decide)
      (by decide)]
  have htotal : totalFood c1Df = mkRat 25 2 + (-(mkRat 5 1) + 0) := by
    unfold totalFood
    rw [show c1Df.rows.filter (fun r =>
          is_food_category (clean_category
            (cellAt r ((detectedCols c1Df).findIdx hasCategoryKeyword)))) =
        [[some "Lunch", some "$12.50"], [some "Groceries", some "(5.00)"]] from by decide]
    rw [show (detectedCols c1Df).findIdx hasAmountKeyword = 1 from by decide]
    simp only [List.map_cons, List.map_nil, List.sum_cons, List.sum_nil]
    rw [show clean_amount (cellAt [some "Lunch", some "$12.50"] 1) = mkRat 25 2 from by decide,
      show clean_amount (cellAt [some "Groceries", some "(5.00)"] 1) = -(mkRat 5 1) from by decide]
  rw [htotal,
    show (mkRat 25 2 + (-(mkRat 5 1) + 0) : ℚ) = mkRat 15 2 from by norm_num [Rat.mkRat_eq_div],
    show round2 (mkRat 15 2) = mkRat 15 2 from by decide,
    show (mkRat 15 2 : ℚ) = 7.5 from by norm_num [Rat.mkRat_eq_div]]

/-- Claim C2: the value normalizer maps `"$1,234.56"`, `"(50.00)"`, `"€99"`,
`""` and `"n/a"` to `1234.56`, `-50.0`, `99.0`, `0.0` and `0.0`
respectively. -/
theorem c2_value_normalizer :
    clean_amount (some "$1,234.56") = 1234.56 ∧
    clean_amount (some "(50.00)") = -50 ∧
    clean_amount (some "€99") = 99 ∧
    clean_amount (some "") = 0 ∧
    clean_amount (some "n/a") = 0 := by
  refine ⟨?_, by decide, by decide, by decide, by decide⟩
  rw [show clean_amount (some "$1,234.56") = mkRat 30864 25 from by decide]
  norm_num [Rat.mkRat_eq_div]

/-- Claim C3: on a normalized category string (lowercase and trimmed, the
form the pipeline feeds it), the food classifier answers true exactly when
the string contains one of the fixed food keywords as a substring; in
particular it accepts "Restaurant", "Seafood Market" and "FOOD" and rejects
"Office Supplies" and the empty string. -/
theorem c3_food_classifier :
    (∀ c : String, c.toList.map Char.toLower = c.toList → trimChars c.toList = c.toList →
      (is_food_category c = true ↔
        food_keywords.any (fun k => strContains c k) = true)) ∧
    is_food_category "Restaurant" = true ∧
    is_food_category "Seafood Market" = true ∧
    is_food_category "FOOD" = true ∧
    is_food_category "Office Supplies" = false ∧
    is_food_category "" = false := by
  refine ⟨?_, by decide, by decide, by decide, by decide, by decide⟩
  intro c h1 h2
  have hn : normalizeForFood c = c := by
    unfold normalizeForFood
    rw [h1, h2]
    cases c
    rfl
  unfold is_food_category
  rw [hn]
  by_cases hc : c = "food"
  · subst hc
    rw [if_pos rfl]
    constructor
    · intro _
      decide
    · intro _
      rfl
  · rw [if_neg hc]

/-- Witness for C3: the normalized string "restaurant" satisfies the
hypotheses, and the classifier on it agrees with keyword containment. -/
theorem c3_food_classifier_witness :
    is_food_category "restaurant" = true ↔
      food_keywords.any (fun k => strContains "restaurant" k) = true :=
  c3_food_classifier.1 "restaurant" (by decide) (by decide)

/-- Claim C4: the column detector picks as amount column the first header (in
original order) containing an amount keyword as a substring and,
independently, as category column the first header containing a category
keyword; on the normalized headers `["date", "category", "amount ($)"]` it
resolves amount to "amount ($)" and category to "category". -/
theorem c4_column_detector :
    (∀ cols : List String, ∀ x : String,
      cols.find? hasAmountKeyword = some x ↔
        hasAmountKeyword x = true ∧ ∃ i, i < cols.length ∧ cols.getD i "" = x ∧
          ∀ j, j < i → hasAmountKeyword (cols.getD j "") = false) ∧
    (∀ cols : List String, ∀ x : String,
      cols.find? hasCategoryKeyword = some x ↔
        hasCategoryKeyword x = true ∧ ∃ i, i < cols.length ∧ cols.getD i "" = x ∧
          ∀ j, j < i → hasCategoryKeyword (cols.getD j "") = false) ∧
    ["date", "category", "amount ($)"].find? hasAmountKeyword = some "amount ($)" ∧
    ["date", "category", "amount ($)"].find? hasCategoryKeyword = some "category" :=
  ⟨fun cols x => find_first_iff hasAmountKeyword cols x,
   fun cols x => find_first_iff hasCategoryKeyword cols x,
   by decide, by decide⟩

/-- Witness for C4: instantiating the first-match characterization on the
example headers at index 2 reproduces the detected amount column. -/
theorem c4_column_detector_witness :
    ["date", "category", "amount ($)"].find? hasAmountKeyword = some "amount ($)" :=
  (c4_column_detector.1 ["date", "category", "amount ($)"] "amount ($)").mpr
    ⟨by decide, 2, by decide, by decide, fun j hj => by
      interval_cases j
      · decide
      · decide⟩

/-- Counterexample to C5 as stated: a dataset with headers matching no amount
keyword but zero data rows fails with the empty-data error, not with an
error naming the amount role. -/
theorem c5_counterexample :
    (detectedCols ⟨["Date", "Notes"], []⟩).find? hasAmountKeyword = none ∧
    analyzeDataset ⟨["Date", "Notes"], []⟩ =
      .error ⟨400, "CSV file contains no data"⟩ ∧
    analyzeDataset ⟨["Date", "Notes"], []⟩ ≠
      .error ⟨400, "Could not identify amount column in CSV"⟩ := by
  refine ⟨by decide, ?_, ?_⟩
  · exact (analyzeDataset_noData_iff _).mpr rfl
  · intro h
    have h2 := (analyzeDataset_noData_iff ⟨["Date", "Notes"], []⟩).mpr rfl
    rw [h] at h2
    exact absurd h2 (by decide)

/-- Claim C5 (amended with "at least one data row", which the zero-row
counterexample forces): on a dataset with data rows, an undetectable amount
column yields the 400 error naming the amount role — also when the category
column is undetectable — and a detected amount column with an undetectable
category column yields the 400 error naming the category role; headers
`["Date", "Notes"]` give the amount-role error. -/
theorem c5_column_errors :
    (∀ df : Csv, df.rows ≠ [] →
      (detectedCols df).find? hasAmountKeyword = none →
      analyzeDataset df = .error ⟨400, "Could not identify amount column in CSV"⟩) ∧
    (∀ df : Csv, ∀ a : String, df.rows ≠ [] →
      (detectedCols df).find? hasAmountKeyword = some a →
      (detectedCols df).find? hasCategoryKeyword = none →
      analyzeDataset df = .error ⟨400, "Could not identify category column in CSV"⟩) ∧
    analyzeDataset ⟨["Date", "Notes"], [[some "2024-01-01", some "note"]]⟩ =
      .error ⟨400, "Could not identify amount column in CSV"⟩ := by
  refine ⟨?_, ?_, by decide⟩
  · intro df hne ha
    exact analyzeDataset_noAmount (isEmpty_false_of_ne_nil hne) ha
  · intro df a hne ha hc
    exact analyzeDataset_noCategory (isEmpty_false_of_ne_nil hne) ha hc

/-- Witness for C5: the amended theorem applied to a one-row dataset with
headers `["Date", "Notes"]`. -/
theorem c5_column_errors_witness :
    analyzeDataset ⟨["Date", "Notes"], [[some "x", some "y"]]⟩ =
      .error ⟨400, "Could not identify amount column in CSV"⟩ :=
  c5_column_errors.1 ⟨["Date", "Notes"], [[some "x", some "y"]]⟩ (by decide) (by decide)

/-- Claim C6: the pipeline reports the malformed-input parse error ("CSV
file is empty", raised by `EmptyDataError`) exactly when the decoded text has
no parsable row at all, and the empty-input error ("CSV file contains no
data") exactly when parsing succeeds with zero data rows; in particular a
header-only CSV fails with the empty-input error. -/
theorem c6_parse_errors :
    (∀ text : List Char,
      analyzeText text = .error ⟨400, "CSV file is empty"⟩ ↔
        csvRecords text = some []) ∧
    (∀ text : List Char,
      analyzeText text = .error ⟨400, "CSV file contains no data"⟩ ↔
        ∃ df : Csv, parseCsv text = .ok df ∧ df.rows = []) ∧
    analyzeText "Category,Amount\n".toList =
      .error ⟨400, "CSV file contains no data"⟩ := by
  refine ⟨?_, ?_, by decide⟩
  · intro text
    constructor
    · intro h
      rcases parseCsv_cases text with hp | hp | ⟨df, hp⟩
      · exact (parseCsv_empty_iff text).mp hp
      · rw [analyzeText_error hp] at h
        exact absurd h (by decide)
      · rw [analyzeText_parsed hp] at h
        exact absurd h (analyzeDataset_ne_empty_error df)
    · intro h
      rw [analyzeText_error (parseCsv_no_records h)]
  · intro text
    constructor
    · intro h
      rcases parseCsv_cases text with hp | hp | ⟨df, hp⟩
      · rw [analyzeText_error hp] at h
        exact absurd h (by decide)
      · rw [analyzeText_error hp] at h
        exact absurd h (by decide)
      · rw [analyzeText_parsed hp] at h
        exact ⟨df, hp, (analyzeDataset_noData_iff df).mp h⟩
    · rintro ⟨df, hp, hrows⟩
      rw [analyzeText_parsed hp]
      exact (analyzeDataset_noData_iff df).mpr hrows

/-- Claim C7: the value normalizer is total — a missing or empty cell yields
0.0, a cleaned token that fails float parsing yields 0.0, and a token that
parses yields its parsed value, so no malformed cell can abort the
pipeline. -/
theorem c7_normalizer_total :
    clean_amount none = 0 ∧
    clean_amount (some "") = 0 ∧
    (∀ s : String, pyFloat (cleanToken s) = none → clean_amount (some s) = 0) ∧
    (∀ s : String, ∀ q : ℚ, pyFloat (cleanToken s) = some q → clean_amount (some s) = q) := by
  refine ⟨rfl, rfl, ?_, ?_⟩
  · intro s h
    simp only [clean_amount]
    by_cases hs : s = ""
    · rw [if_pos hs]
    · rw [if_neg hs, h]
      rfl
  · intro s q h
    simp only [clean_amount]
    by_cases hs : s = ""
    · subst hs
      rw [show pyFloat (cleanToken "") = none from by decide] at h
      exact Option.noConfusion h
    · rw [if_neg hs, h]
      rfl

/-- Witness for C7: the token "n/a" cleans to an unparsable string and is
recovered as 0. -/
theorem c7_normalizer_total_witness :
    clean_amount (some "n/a") = 0 :=
  c7_normalizer_total.2.2.1 "n/a" (by decide)

/-- Claim C8: decoding never fails — the utf-8 attempt is tried first and
latin-1 accepts arbitrary bytes, so the cp1252 fallback and the
decode-failure path are unreachable: for every byte sequence the decode
stage returns the utf-8 decoding when it exists and the latin-1 decoding
otherwise. -/
theorem c8_decode_total :
    ∀ bs : List Byte,
      decodeStage bs = some ((utf8Decode bs).getD (latin1Decode bs)) := by
  intro bs
  unfold decodeStage latin1DecodeOpt
  cases utf8Decode bs with
  | none => rfl
  | some t => rfl

/-- Claim C9: the pipeline is deterministic — two runs on identical input
bytes produce identical outcomes; the core is a pure function of its input
bytes. -/
theorem c9_deterministic :
    ∀ bs1 bs2 : List Byte, bs1 = bs2 → analyze_expenses bs1 = analyze_expenses bs2 := by
  intro bs1 bs2 h
  rw [h]

/-- Witness for C9: two runs on the same concrete upload agree. -/
theorem c9_deterministic_witness :
    analyze_expenses (asciiBytes "Category,Amount\nLunch,5") =
      analyze_expenses (asciiBytes "Category,Amount\nLunch,5") :=
  c9_deterministic (asciiBytes "Category,Amount\nLunch,5")
    (asciiBytes "Category,Amount\nLunch,5") rfl

/-- Counterexample to C10 as stated: `c10Df` has a data row, both columns
detected and no food-classified row, yet the pipeline reports the 500
internal error — `df['amount']` with the duplicated normalized label is a
two-column DataFrame, on which the per-cell cleaners raise — instead of
succeeding with 0.0. -/
theorem c10_counterexample :
    c10Df.rows ≠ [] ∧
    (detectedCols c10Df).find? hasAmountKeyword ≠ none ∧
    (detectedCols c10Df).find? hasCategoryKeyword ≠ none ∧
    (∀ r ∈ c10Df.rows,
      is_food_category (clean_category
        (cellAt r ((detectedCols c10Df).findIdx hasCategoryKeyword))) = false) ∧
    analyzeDataset c10Df = .error ⟨500, "Internal server error"⟩ ∧
    analyzeDataset c10Df ≠ .ok ⟨0, "user@example.com", "tds-2025-05-roe"⟩ := by
  decide

/-- Claim C10 (amended with pairwise-distinct normalized header names, which
the duplicate-label counterexample forces): a dataset with distinct
normalized headers, at least one data row, both columns detected and no row
whose normalized category passes the food classifier succeeds with answer
0.0 — the sum over the empty set of kept rows. -/
theorem c10_no_food_rows :
    ∀ df : Csv, df.rows ≠ [] →
      (detectedCols df).Nodup →
      (detectedCols df).find? hasAmountKeyword ≠ none →
      (detectedCols df).find? hasCategoryKeyword ≠ none →
      (∀ r ∈ df.rows,
        is_food_category (clean_category
          (cellAt r ((detectedCols df).findIdx hasCategoryKeyword))) = false) →
      analyzeDataset df = .ok ⟨0, "user@example.com", "tds-2025-05-roe"⟩ := by
  intro df hne hnodup hfa hfc hnofood
  rcases Option.ne_none_iff_exists.mp hfa with ⟨a, ha⟩
  rcases Option.ne_none_iff_exists.mp hfc with ⟨c, hc⟩
  have hca : (detectedCols df).count a ≤ 1 := List.nodup_iff_count_le_one.mp hnodup a
  have hcc : (detectedCols df).count c ≤ 1 := List.nodup_iff_count_le_one.mp hnodup c
  rw [analyzeDataset_success (isEmpty_false_of_ne_nil hne) ha.symm hc.symm (by omega)]
  have hfilter : df.rows.filter (fun r =>
      is_food_category (clean_category
        (cellAt r ((detectedCols df).findIdx hasCategoryKeyword)))) = [] := by
    rw [List.filter_eq_nil_iff]
    intro r hr
    simp [hnofood r hr]
  have htot : totalFood df = 0 := by
    unfold totalFood
    rw [hfilter]
    rfl
  rw [htot, show round2 (0 : ℚ) = 0 from by decide]

/-- Witness for C10: a single-row dataset with distinct headers whose
category "Rent" is not food-related answers 0. -/
theorem c10_no_food_rows_witness :
    analyzeDataset ⟨["Category", "Amount"], [[some "Rent", some "800"]]⟩ =
      .ok ⟨0, "user@example.com", "tds-2025-05-roe"⟩ :=
  c10_no_food_rows ⟨["Category", "Amount"], [[some "Rent", some "800"]]⟩
    (by decide) (by decide) (by decide) (by decide) (by decide)

end FinTrack
